import Mathlib

/-!
# Verification of `rununiproc` (Windows single-CPU process launcher)

Shallow embedding of `src/rununiproc.cpp`.  The repository file contains two
near-duplicate variants of `wmain`:

* the *direct-mode* variant (first part of the file) uses `argv[1]` verbatim
  as the executable path and quotes `argv[1..]` into the command line;
* the *search-mode* variant (second part) first resolves `argv[1]` through
  `SearchPath` with the `.exe` extension, then quotes the resolved path
  followed by `argv[2..]`.

The program is a straight-line sequence of Windows API calls, each of which
can fail independently.  We model the outcome of every OS call by an
environment record `Env` (one field per fallible call), and `wmain` as a pure
function from the argument vector and the environment to a `RunResult` that
records the exit code, which diagnostic (if any) was printed to stderr, the
data passed to the relevant calls, and an ordered trace of the OS calls that
were performed together with their success flags.

Machine integers are modelled as `Nat` with explicit truncation where the
source's widths matter: the affinity mask and `JOBOBJECT_BASIC_LIMIT_INFORMATION
.Affinity` are `DWORD_PTR` (64-bit on the x64 build the source targets via
`_M_X64` / `_BitScanForward64`), `DWORD` values are reduced `% 2 ^ 32`.
-/

namespace RunUniProc

/-- Which stderr diagnostic a failing path printed.  Each constructor
corresponds to exactly one `std::wcerr`/`std::cerr` message in the source
(both variants print the same messages for the shared steps). -/
inductive Err where
  /-- `"At least one argument required."` (argc < 2) -/
  | usage
  /-- `"SearchPath failed with error code ..."` (search variant only) -/
  | execNotFound
  /-- `"SearchPath failed: path too long."` (search variant only) -/
  | pathTooLong
  /-- `"CreateJobObject failed."` -/
  | containmentCreate
  /-- `"Unable to obtain our CPU affinity mask."` -/
  | envQuery
  /-- `"CPU affinity mask is zero?!"` -/
  | noAvailableCPU
  /-- `"Unable to set basic limit information on job object."` -/
  | containmentConfigure
  /-- `"InitializeProcThreadAttributeList for sizing failed"` -/
  | attrSizeQuery
  /-- `"InitializeProcThreadAttributeList failed"` -/
  | attrListInit
  /-- `"UpdateProcThreadAttribute failed"` -/
  | attrUpdate
  /-- `"Command line is too long for CreateProcess"` (search variant only) -/
  | cmdLineTooLong
  /-- `"CreateProcess failed with error code ..."` -/
  | processCreate
  /-- `"AssignProcessToJobObject failed with error code ..."` -/
  | containmentAssign
  /-- `"ResumeThread failed with error code ..."` -/
  | resumeFail
  /-- `"WaitForSingleObject failed with error code ..."` (non-fatal) -/
  | waitFail
  /-- `"GetExitCodeProcess failed with error code ..."` (non-fatal) -/
  | exitCodeFail
  deriving DecidableEq, Repr

/-- The OS calls the program performs, in source order.  Used as trace
events, paired with the call's success flag. -/
inductive Ev where
  /-- `SearchPath` (search variant only) -/
  | search
  /-- `CreateJobObject` -/
  | createJob
  /-- `GetProcessAffinityMask` -/
  | queryMask
  /-- `_BitScanForward64` on the process affinity mask -/
  | bitScan
  /-- `SetInformationJobObject` (basic limit information) -/
  | setLimit
  /-- sizing call of `InitializeProcThreadAttributeList` -/
  | sizeAttr
  /-- `InitializeProcThreadAttributeList` -/
  | initAttr
  /-- `UpdateProcThreadAttribute` (handle allow-list) -/
  | updateAttr
  /-- `CreateProcess` with `CREATE_SUSPENDED` -/
  | createProc
  /-- `AssignProcessToJobObject` -/
  | assign
  /-- `ResumeThread` on the child's initial thread -/
  | resume
  /-- `TerminateProcess` on the child -/
  | terminate
  /-- `WaitForSingleObject` on the child process -/
  | wait
  /-- `GetExitCodeProcess` -/
  | getExit
  deriving DecidableEq, Repr

/-- Outcomes of the OS calls, fixed before the run: one field per fallible
call the source makes.  `affinityMask` is `none` when `GetProcessAffinityMask`
fails, otherwise the `DWORD_PTR` mask it reports.  `searchResult` is `none`
when `SearchPath` returns 0, otherwise the resolved path (whose length is the
value `SearchPath` returned).  `childExit` is `none` when `GetExitCodeProcess`
fails, otherwise the `DWORD` it writes. -/
structure Env where
  createJobOk : Bool
  affinityMask : Option Nat
  setLimitOk : Bool
  sizeQueryOk : Bool
  initAttrOk : Bool
  updateAttrOk : Bool
  searchResult : Option String
  createProcessOk : Bool
  assignOk : Bool
  resumeOk : Bool
  waitOk : Bool
  childExit : Option Nat
  deriving DecidableEq, Repr

/-- Observable outcome of a run of `wmain`.  `err` records which diagnostic
was printed to stderr (`none` = no diagnostic).  `jobCreated` is true iff
`CreateJobObject` succeeded, `selectedIndex` is the CPU index produced by the
bit scan, `limitRequested` is the `Affinity` bitmask actually passed to
`SetInformationJobObject`, `cmdLine` the assembled command line,
`processCreated` whether `CreateProcess` succeeded, `childTerminated` whether
`TerminateProcess` was called on the child.  `trace` lists the OS calls in
the order they were made, each with its success flag. -/
structure RunResult where
  exitCode : Nat := 1
  err : Option Err := none
  jobCreated : Bool := false
  selectedIndex : Option Nat := none
  limitRequested : Option Nat := none
  cmdLine : Option String := none
  processCreated : Bool := false
  childTerminated : Bool := false
  trace : List (Ev × Bool) := []
  deriving DecidableEq, Repr

/-- Fuel-driven scan for the least-significant set bit; `lsbAux fuel m` is
the lowest set bit position of `m` whenever `m ≠ 0` and `m ≤ fuel`. -/
def lsbAux : Nat → Nat → Nat
  | 0, _ => 0
  | fuel + 1, m => if m % 2 = 1 then 0 else lsbAux fuel (m / 2) + 1

/-- Models the `_BitScanForward64` intrinsic's output on a non-zero input:
the zero-based position of the lowest set bit of `m`.  (The source checks the
intrinsic's return value, which is zero exactly when the input mask is zero;
that check is made by the caller.) -/
def lowestSetBit (m : Nat) : Nat := lsbAux m m

/-- Models the C++ expression `(1 << index)` of the source
(`basicLimitInfo.Affinity = (1 << index);`) on the x64 build: the literal `1`
has type `int` (32 bits), so the shift is a 32-bit shift whose count the
hardware masks to `index % 32`, and the signed 32-bit result is then
sign-extended when converted to the 64-bit unsigned `DWORD_PTR` field
`Affinity`.  Returned as the resulting 64-bit unsigned value. -/
def shl32Signed (index : Nat) : Int :=
  if 2 ^ (index % 32) < 2 ^ 31 then ((2 : Int) ^ (index % 32))
  else ((2 : Int) ^ (index % 32)) - 2 ^ 32

/-- The 64-bit `Affinity` value the source stores for a selected CPU
`index`: the sign-extended 32-bit shift, reduced into `[0, 2^64)`. -/
def affinityValue (index : Nat) : Nat := (shl32Signed index % (2 : Int) ^ 64).toNat

/-- `oss << L"\"" << arg << L"\""`: wrap an argument in double quotes
verbatim (no escaping of internal quotes). -/
def quoteArg (s : String) : String := "\"" ++ s ++ "\""

/-- The direct-mode command-line loop (`for i in 1..argc-1`): each argument
quoted, a single space appended after every argument except the last.
The argument list passed here is `argv[1..]`. -/
def buildCmdLineDirect : List String → String
  | [] => ""
  | [a] => quoteArg a
  | a :: b :: rest => quoteArg a ++ " " ++ buildCmdLineDirect (b :: rest)

/-- The search-mode command-line builder: the quoted resolved path first,
then a space iff `argc > 2`, then the loop over `argv[2..]` as in direct
mode. -/
def buildCmdLineSearch (resolved : String) (rest : List String) : String :=
  match rest with
  | [] => quoteArg resolved
  | _ :: _ => quoteArg resolved ++ " " ++ buildCmdLineDirect rest

/-- `DWORD const exePathBufLen = 32767;` — also the bound used by the
search variant's command-line length check. -/
def exePathBufLen : Nat := 32767

/-- The shared middle section of both variants: `CreateJobObject`,
`GetProcessAffinityMask`, the bit scan, `SetInformationJobObject`, then the
attribute-list sizing / allocation / initialization / update.  (`new char[]`
and `std::make_unique` throw rather than return null on failure, so the
source's null checks after them are unreachable and allocation is not a
fallible step of the model.)  Returns `.error r` when the source returns 1
early, `.ok r` when control continues to command-line assembly. -/
def jobSetup (base : RunResult) (env : Env) : Except RunResult RunResult :=
  let r1E : RunResult := { base with
    jobCreated := env.createJobOk
    trace := base.trace ++ [(Ev.createJob, env.createJobOk)] }
  if !env.createJobOk then .error { r1E with err := some Err.containmentCreate } else
  let r2E : RunResult := { r1E with
    trace := r1E.trace ++ [(Ev.queryMask, env.affinityMask.isSome)] }
  match env.affinityMask with
  | none => .error { r2E with err := some Err.envQuery }
  | some m =>
    if m = 0 then
      .error { r2E with
        trace := r2E.trace ++ [(Ev.bitScan, false)]
        err := some Err.noAvailableCPU }
    else
      let r3E : RunResult := { r2E with
        selectedIndex := some (lowestSetBit m)
        trace := r2E.trace ++ [(Ev.bitScan, true)] }
      let r4E : RunResult := { r3E with
        limitRequested := some (affinityValue (lowestSetBit m))
        trace := r3E.trace ++ [(Ev.setLimit, env.setLimitOk)] }
      if !env.setLimitOk then .error { r4E with err := some Err.containmentConfigure } else
      let r5E : RunResult := { r4E with
        trace := r4E.trace ++ [(Ev.sizeAttr, env.sizeQueryOk)] }
      if !env.sizeQueryOk then .error { r5E with err := some Err.attrSizeQuery } else
      let r6E : RunResult := { r5E with
        trace := r5E.trace ++ [(Ev.initAttr, env.initAttrOk)] }
      if !env.initAttrOk then .error { r6E with err := some Err.attrListInit } else
      let r7E : RunResult := { r6E with
        trace := r6E.trace ++ [(Ev.updateAttr, env.updateAttrOk)] }
      if !env.updateAttrOk then .error { r7E with err := some Err.attrUpdate } else
      .ok r7E

/-- The shared tail of both variants: `CreateProcess` with
`CREATE_SUSPENDED`, `AssignProcessToJobObject`, `ResumeThread`,
`WaitForSingleObject`, `GetExitCodeProcess`.  On assign or resume failure
the child is terminated via `TerminateProcess` and the tool returns 1; a
wait failure returns 0; the exit code defaults to 0 when
`GetExitCodeProcess` fails, otherwise it is the child's `DWORD` exit
code. -/
def runChild (base : RunResult) (env : Env) (cmd : String) : RunResult :=
  let rcE : RunResult := { base with
    cmdLine := some cmd
    processCreated := env.createProcessOk
    trace := base.trace ++ [(Ev.createProc, env.createProcessOk)] }
  if !env.createProcessOk then { rcE with err := some Err.processCreate } else
  let raE : RunResult := { rcE with trace := rcE.trace ++ [(Ev.assign, env.assignOk)] }
  if !env.assignOk then
    { raE with
      err := some Err.containmentAssign
      childTerminated := true
      trace := raE.trace ++ [(Ev.terminate, true)]
      exitCode := 1 } else
  let rrE : RunResult := { raE with trace := raE.trace ++ [(Ev.resume, env.resumeOk)] }
  if !env.resumeOk then
    { rrE with
      err := some Err.resumeFail
      childTerminated := true
      trace := rrE.trace ++ [(Ev.terminate, true)]
      exitCode := 1 } else
  let rwE : RunResult := { rrE with trace := rrE.trace ++ [(Ev.wait, env.waitOk)] }
  if !env.waitOk then { rwE with err := some Err.waitFail, exitCode := 0 } else
  let rgE : RunResult := { rwE with
    trace := rwE.trace ++ [(Ev.getExit, env.childExit.isSome)] }
  match env.childExit with
  | none => { rgE with err := some Err.exitCodeFail, exitCode := 0 }
  | some c => { rgE with exitCode := c % 2 ^ 32 }

/-- The direct-mode `wmain` (first variant in the source file): `argv` is
the full argument vector including `argv[0]`. -/
def wmainDirect (argv : List String) (env : Env) : RunResult :=
  if argv.length < 2 then { exitCode := 1, err := some Err.usage }
  else
    match jobSetup {} env with
    | .error r => r
    | .ok r => runChild r env (buildCmdLineDirect (argv.drop 1))

/-- The search-mode `wmain` (second variant in the source file):
`SearchPath` runs first; a zero return fails, a returned length
`≥ exePathBufLen` fails with the path-too-long diagnostic; then the shared
setup, then command-line assembly from the resolved path and `argv[2..]`
with the `cmdLine.size() > exePathBufLen` check, then the shared tail. -/
def wmainSearch (argv : List String) (env : Env) : RunResult :=
  if argv.length < 2 then { exitCode := 1, err := some Err.usage }
  else
    match env.searchResult with
    | none =>
      { exitCode := 1
        err := some Err.execNotFound
        trace := [(Ev.search, false)] }
    | some p =>
      if exePathBufLen ≤ p.length then
        { exitCode := 1, err := some Err.pathTooLong, trace := [(Ev.search, true)] }
      else
        match jobSetup { trace := [(Ev.search, true)] } env with
        | .error r => r
        | .ok r =>
          let cmd := buildCmdLineSearch p (argv.drop 2)
          if exePathBufLen < cmd.length then
            { r with
              cmdLine := some cmd
              err := some Err.cmdLineTooLong
              exitCode := 1 }
          else runChild r env cmd

/-- Scans a trace left to right and checks that every `ResumeThread` event
is preceded by a successful `AssignProcessToJobObject`; `seen` records
whether a successful assign has been seen so far. -/
def assignedBeforeResume (seen : Bool) : List (Ev × Bool) → Bool
  | [] => true
  | (ev, ok) :: rest =>
    match ev with
    | Ev.assign => assignedBeforeResume (seen || ok) rest
    | Ev.resume => seen && assignedBeforeResume seen rest
    | _ => assignedBeforeResume seen rest

/-- An all-success environment: every OS call succeeds, the process
affinity mask is `0b0110`, `SearchPath` resolves to `C:\bin\tool.exe`, the
child exits with code 42. -/
def envAllOk : Env :=
  { createJobOk := true
    affinityMask := some 6
    setLimitOk := true
    sizeQueryOk := true
    initAttrOk := true
    updateAttrOk := true
    searchResult := some "C:\\bin\\tool.exe"
    createProcessOk := true
    assignOk := true
    resumeOk := true
    waitOk := true
    childExit := some 42 }

/-- Environment in which the process affinity mask is zero. -/
def envZeroMask : Env := { envAllOk with affinityMask := some 0 }

/-- Environment in which only CPU #32 is available to the process
(affinity mask `2 ^ 32`, representable since `DWORD_PTR` is 64-bit on the
x64 build). -/
def envCpu32 : Env := { envAllOk with affinityMask := some (2 ^ 32) }

/-! ## Projection lemmas about the shared tail -/

/-- `runChild` never changes the recorded selected CPU index. -/
theorem runChild_selectedIndex (base : RunResult) (env : Env) (cmd : String) :
    (runChild base env cmd).selectedIndex = base.selectedIndex := by
  simp only [runChild]
  repeat' split
  all_goals rfl

/-- `runChild` never changes the job-created flag. -/
theorem runChild_jobCreated (base : RunResult) (env : Env) (cmd : String) :
    (runChild base env cmd).jobCreated = base.jobCreated := by
  simp only [runChild]
  repeat' split
  all_goals rfl

/-- `runChild` never changes the recorded affinity limit. -/
theorem runChild_limitRequested (base : RunResult) (env : Env) (cmd : String) :
    (runChild base env cmd).limitRequested = base.limitRequested := by
  simp only [runChild]
  repeat' split
  all_goals rfl

/-- `runChild` records exactly the command line it was given. -/
theorem runChild_cmdLine (base : RunResult) (env : Env) (cmd : String) :
    (runChild base env cmd).cmdLine = some cmd := by
  simp only [runChild]
  repeat' split
  all_goals rfl

/-- `runChild` records whether `CreateProcess` succeeded. -/
theorem runChild_processCreated (base : RunResult) (env : Env) (cmd : String) :
    (runChild base env cmd).processCreated = env.createProcessOk := by
  simp only [runChild]
  repeat' split
  all_goals rfl

/-- When every call of the shared setup section succeeds, `jobSetup`
continues with the job created, the lowest set bit of the mask selected,
the (truncated) shift of that index recorded as the applied limit, and the
seven setup calls appended to the trace. -/
theorem jobSetup_ok_eq (base : RunResult) (env : Env) (m : Nat)
    (hjob : env.createJobOk = true) (hmask : env.affinityMask = some m)
    (hm : m ≠ 0) (hsl : env.setLimitOk = true) (hsq : env.sizeQueryOk = true)
    (hia : env.initAttrOk = true) (hua : env.updateAttrOk = true) :
    jobSetup base env = Except.ok { base with
      jobCreated := true
      selectedIndex := some (lowestSetBit m)
      limitRequested := some (affinityValue (lowestSetBit m))
      trace := base.trace ++ [(Ev.createJob, true), (Ev.queryMask, true),
        (Ev.bitScan, true), (Ev.setLimit, true), (Ev.sizeAttr, true),
        (Ev.initAttr, true), (Ev.updateAttr, true)] } := by
  simp [jobSetup, hjob, hmask, hm, hsl, hsq, hia, hua]

/-- Whatever the outcome of the setup section, once the bit scan has run
(job created, mask readable and non-zero) the recorded selected index is
the lowest set bit of the mask. -/
theorem jobSetup_selectedIndex (base : RunResult) (env : Env) (m : Nat)
    (hjob : env.createJobOk = true) (hmask : env.affinityMask = some m)
    (hm : m ≠ 0) (r : RunResult)
    (h : jobSetup base env = Except.error r ∨ jobSetup base env = Except.ok r) :
    r.selectedIndex = some (lowestSetBit m) := by
  simp [jobSetup, hjob, hmask, hm] at h
  rcases h with h | h
  all_goals repeat' split at h
  all_goals first
    | (injection h with h2; subst h2; rfl)
    | (injection h)

/-! ## Bit-scan characterization -/

theorem lsbAux_spec (fuel : Nat) :
    ∀ m, m ≠ 0 → m ≤ fuel →
      m / 2 ^ lsbAux fuel m % 2 = 1 ∧
      (∀ j, j < lsbAux fuel m → m / 2 ^ j % 2 = 0) ∧
      2 ^ lsbAux fuel m ≤ m := by
  induction fuel with
  | zero => intro m hm hle; omega
  | succ fuel ih =>
    intro m hm hle
    by_cases h2 : m % 2 = 1
    · refine ⟨?_, ?_, ?_⟩
      all_goals simp [lsbAux, h2]
      all_goals omega
    · have h0 : m % 2 = 0 := by omega
      have hm2 : m / 2 ≠ 0 := by omega
      have hle2 : m / 2 ≤ fuel := by omega
      obtain ⟨ha, hb, hc⟩ := ih (m / 2) hm2 hle2
      have hrw : lsbAux (fuel + 1) m = lsbAux fuel (m / 2) + 1 := by
        simp [lsbAux, h2]
      refine ⟨?_, ?_, ?_⟩
      · rw [hrw, pow_succ', ← Nat.div_div_eq_div_mul]
        exact ha
      · intro j hj
        rw [hrw] at hj
        cases j with
        | zero => simpa using h0
        | succ j =>
          rw [pow_succ', ← Nat.div_div_eq_div_mul]
          exact hb j (by omega)
      · rw [hrw, pow_succ']
        have h3 : 2 * 2 ^ lsbAux fuel (m / 2) ≤ 2 * (m / 2) :=
          Nat.mul_le_mul (le_refl 2) hc
        omega

/-- On a non-zero mask, `lowestSetBit` really is the position of the lowest
set bit: the bit there is set, every lower bit is clear, and `2 ^ position`
is a lower bound of the mask. -/
theorem lowestSetBit_spec (m : Nat) (hm : m ≠ 0) :
    Nat.testBit m (lowestSetBit m) = true ∧
    (∀ j, j < lowestSetBit m → Nat.testBit m j = false) ∧
    2 ^ lowestSetBit m ≤ m := by
  obtain ⟨ha, hb, hc⟩ := lsbAux_spec m m hm (le_refl m)
  unfold lowestSetBit
  refine ⟨?_, ?_, hc⟩
  · rw [Nat.testBit_to_div_mod, ha]
    rfl
  · intro j hj
    rw [Nat.testBit_to_div_mod, hb j hj]
    rfl

/-- A mask below `2 ^ 64` has its lowest set bit below position 64. -/
theorem lowestSetBit_lt_width (m : Nat) (hm : m ≠ 0) (hw : m < 2 ^ 64) :
    lowestSetBit m < 64 := by
  by_contra h
  push_neg at h
  have h1 : (2 : Nat) ^ 64 ≤ 2 ^ lowestSetBit m :=
    Nat.pow_le_pow_right (by norm_num) h
  have h2 := (lowestSetBit_spec m hm).2.2
  omega

/-! ## Claim C10 -/

/-- C10: with fewer than two command-line arguments, both variants print the
usage diagnostic to stderr and return 1 without making a single OS call: no
containment (job) object, no attribute list, no child process. -/
theorem C10_usage_no_resources (argv : List String) (env : Env)
    (h : argv.length < 2) :
    (wmainDirect argv env).exitCode = 1 ∧
    (wmainDirect argv env).err = some Err.usage ∧
    (wmainDirect argv env).jobCreated = false ∧
    (wmainDirect argv env).processCreated = false ∧
    (wmainDirect argv env).trace = [] ∧
    (wmainSearch argv env).exitCode = 1 ∧
    (wmainSearch argv env).err = some Err.usage ∧
    (wmainSearch argv env).jobCreated = false ∧
    (wmainSearch argv env).processCreated = false ∧
    (wmainSearch argv env).trace = [] := by
  simp [wmainDirect, wmainSearch, h]

/-- Witness for C10 at the concrete input `argv = ["rununiproc"]`. -/
theorem C10_usage_no_resources_witness :
    (wmainDirect ["rununiproc"] envAllOk).exitCode = 1 ∧
    (wmainDirect ["rununiproc"] envAllOk).err = some Err.usage ∧
    (wmainDirect ["rununiproc"] envAllOk).jobCreated = false ∧
    (wmainDirect ["rununiproc"] envAllOk).processCreated = false ∧
    (wmainDirect ["rununiproc"] envAllOk).trace = [] ∧
    (wmainSearch ["rununiproc"] envAllOk).exitCode = 1 ∧
    (wmainSearch ["rununiproc"] envAllOk).err = some Err.usage ∧
    (wmainSearch ["rununiproc"] envAllOk).jobCreated = false ∧
    (wmainSearch ["rununiproc"] envAllOk).processCreated = false ∧
    (wmainSearch ["rununiproc"] envAllOk).trace = [] :=
  C10_usage_no_resources ["rununiproc"] envAllOk (by decide)

/-! ## Claim C4 -/

/-- C4 counterexample: with a zero affinity mask the tool does fail with the
`NoAvailableCPU` diagnostic and exit code 1, but a containment (job) object
*was* created: `CreateJobObject` runs before the affinity mask is inspected
in both variants, so "no containment object is created" is false. -/
theorem C4_job_already_created :
    (wmainDirect ["rununiproc", "x"] envZeroMask).err = some Err.noAvailableCPU ∧
    (wmainDirect ["rununiproc", "x"] envZeroMask).exitCode = 1 ∧
    (wmainDirect ["rununiproc", "x"] envZeroMask).jobCreated = true ∧
    (Ev.createJob, true) ∈ (wmainDirect ["rununiproc", "x"] envZeroMask).trace := by
  decide

/-- C4 (amended): if the affinity mask is zero, CPU selection fails with the
`NoAvailableCPU` diagnostic and the tool exits 1; no affinity limit is ever
applied to the containment object and no child process is created — but the
containment object itself has already been created before selection (the
job-object creation precedes the mask query in both variants). -/
theorem C4_zero_mask_no_launch (argv : List String) (env : Env) (p : String)
    (hlen : 2 ≤ argv.length) (hjob : env.createJobOk = true)
    (hmask : env.affinityMask = some 0) :
    ((wmainDirect argv env).err = some Err.noAvailableCPU ∧
     (wmainDirect argv env).exitCode = 1 ∧
     (wmainDirect argv env).limitRequested = none ∧
     (wmainDirect argv env).processCreated = false ∧
     (wmainDirect argv env).jobCreated = true) ∧
    (env.searchResult = some p → p.length < exePathBufLen →
     (wmainSearch argv env).err = some Err.noAvailableCPU ∧
     (wmainSearch argv env).exitCode = 1 ∧
     (wmainSearch argv env).limitRequested = none ∧
     (wmainSearch argv env).processCreated = false ∧
     (wmainSearch argv env).jobCreated = true) := by
  have hge : ¬ argv.length < 2 := by omega
  constructor
  · simp [wmainDirect, jobSetup, hjob, hmask, hge]
  · intro hs hp
    simp [wmainSearch, jobSetup, hjob, hmask, hge, hs, Nat.not_le.mpr hp]

/-- Witness for C4 (amended) at a concrete input. -/
theorem C4_zero_mask_no_launch_witness :
    ((wmainDirect ["rununiproc", "x"] envZeroMask).err = some Err.noAvailableCPU ∧
     (wmainDirect ["rununiproc", "x"] envZeroMask).exitCode = 1 ∧
     (wmainDirect ["rununiproc", "x"] envZeroMask).limitRequested = none ∧
     (wmainDirect ["rununiproc", "x"] envZeroMask).processCreated = false ∧
     (wmainDirect ["rununiproc", "x"] envZeroMask).jobCreated = true) ∧
    (envZeroMask.searchResult = some "C:\\bin\\tool.exe" →
     "C:\\bin\\tool.exe".length < exePathBufLen →
     (wmainSearch ["rununiproc", "x"] envZeroMask).err = some Err.noAvailableCPU ∧
     (wmainSearch ["rununiproc", "x"] envZeroMask).exitCode = 1 ∧
     (wmainSearch ["rununiproc", "x"] envZeroMask).limitRequested = none ∧
     (wmainSearch ["rununiproc", "x"] envZeroMask).processCreated = false ∧
     (wmainSearch ["rununiproc", "x"] envZeroMask).jobCreated = true) :=
  C4_zero_mask_no_launch ["rununiproc", "x"] envZeroMask "C:\\bin\\tool.exe"
    (by decide) (by decide) (by decide)

/-! ## Claim C3 -/

/-- C3: the affinity limit is *not* always a one-bit mask at the selected
index.  `basicLimitInfo.Affinity = (1 << index)` shifts the 32-bit `int`
literal `1`, while on the x64 build `index` ranges over the 64-bit
`DWORD_PTR` mask width.  With only CPU #32 available (mask `2 ^ 32`) the
selected index is 32 but the limit passed to `SetInformationJobObject` is
`1` — bit 0, a CPU outside the process's own mask; and for index 31 the
sign-extended value `2 ^ 64 - 2 ^ 31` has 33 bits set. -/
theorem C3_limit_not_single_bit :
    (wmainDirect ["rununiproc", "x"] envCpu32).selectedIndex = some 32 ∧
    (wmainDirect ["rununiproc", "x"] envCpu32).limitRequested = some 1 ∧
    Nat.testBit 1 32 = false ∧
    affinityValue 31 = 2 ^ 64 - 2 ^ 31 ∧ affinityValue 31 ≠ 2 ^ 31 := by
  decide

/-! ## Claim C9 -/

/-- C9: in search mode, a resolved path whose length is at or beyond the
path buffer capacity (`pathLen >= exePathBufLen`) makes the tool print the
path-too-long diagnostic and exit 1; no job object and no process is
created (the trace stops at the `SearchPath` call). -/
theorem C9_path_too_long (argv : List String) (env : Env) (p : String)
    (hlen : 2 ≤ argv.length) (hs : env.searchResult = some p)
    (hp : exePathBufLen ≤ p.length) :
    (wmainSearch argv env).err = some Err.pathTooLong ∧
    (wmainSearch argv env).exitCode = 1 ∧
    (wmainSearch argv env).processCreated = false ∧
    (wmainSearch argv env).jobCreated = false ∧
    (wmainSearch argv env).trace = [(Ev.search, true)] := by
  have hge : ¬ argv.length < 2 := by omega
  simp [wmainSearch, hge, hs, hp]

/-- A resolved path that exactly fills the 32767-character buffer. -/
def longPath : String := String.mk (List.replicate 32767 'a')

theorem longPath_length : longPath.length = 32767 := by
  unfold longPath
  rw [String.length_mk, List.length_replicate]

/-- Environment in which `SearchPath` reports a 32767-character path. -/
def envLongPath : Env := { envAllOk with searchResult := some longPath }

/-- Witness for C9 at a concrete input. -/
theorem C9_path_too_long_witness :
    (wmainSearch ["rununiproc", "x"] envLongPath).err = some Err.pathTooLong ∧
    (wmainSearch ["rununiproc", "x"] envLongPath).exitCode = 1 ∧
    (wmainSearch ["rununiproc", "x"] envLongPath).processCreated = false ∧
    (wmainSearch ["rununiproc", "x"] envLongPath).jobCreated = false ∧
    (wmainSearch ["rununiproc", "x"] envLongPath).trace = [(Ev.search, true)] :=
  C9_path_too_long ["rununiproc", "x"] envLongPath longPath (by decide) rfl
    (by rw [longPath_length]; decide)

/-! ## Claim C6 -/

/-- C6: whatever the environment, once the (non-zero, 64-bit) affinity mask
has been read and scanned, the selected CPU index recorded by either variant
is the position of the lowest set bit of the mask: the bit there is set,
every lower bit is clear, and the index is below the 64-bit mask width.
The spec's example is included: mask `0b0110` yields index 1. -/
theorem C6_lowest_set_bit (argv : List String) (env : Env) (m : Nat)
    (hlen : 2 ≤ argv.length) (hjob : env.createJobOk = true)
    (hmask : env.affinityMask = some m) (hm : m ≠ 0) (hw : m < 2 ^ 64) :
    (wmainDirect argv env).selectedIndex = some (lowestSetBit m) ∧
    (∀ p, env.searchResult = some p → p.length < exePathBufLen →
      (wmainSearch argv env).selectedIndex = some (lowestSetBit m)) ∧
    Nat.testBit m (lowestSetBit m) = true ∧
    (∀ j, j < lowestSetBit m → Nat.testBit m j = false) ∧
    lowestSetBit m < 64 ∧
    lowestSetBit 6 = 1 := by
  have hge : ¬ argv.length < 2 := by omega
  obtain ⟨hbit, hlow, _⟩ := lowestSetBit_spec m hm
  refine ⟨?_, ?_, hbit, hlow, lowestSetBit_lt_width m hm hw, by decide⟩
  · unfold wmainDirect
    rw [if_neg hge]
    cases h : jobSetup {} env with
    | error r => exact jobSetup_selectedIndex {} env m hjob hmask hm r (Or.inl h)
    | ok r =>
      show (runChild r env (buildCmdLineDirect (argv.drop 1))).selectedIndex = _
      rw [runChild_selectedIndex]
      exact jobSetup_selectedIndex {} env m hjob hmask hm r (Or.inr h)
  · intro p hs hp
    unfold wmainSearch
    rw [if_neg hge, hs]
    dsimp only
    rw [if_neg (show ¬ exePathBufLen ≤ p.length by omega)]
    cases h : jobSetup { trace := [(Ev.search, true)] } env with
    | error r =>
      exact jobSetup_selectedIndex { trace := [(Ev.search, true)] } env m
        hjob hmask hm r (Or.inl h)
    | ok r =>
      have hr := jobSetup_selectedIndex { trace := [(Ev.search, true)] } env m
        hjob hmask hm r (Or.inr h)
      dsimp only
      split
      · exact hr
      · rw [runChild_selectedIndex]
        exact hr

/-- Witness for C6 at mask `0b0110` with all OS calls succeeding. -/
theorem C6_lowest_set_bit_witness :
    (wmainDirect ["rununiproc", "x"] envAllOk).selectedIndex =
      some (lowestSetBit 6) ∧
    (wmainSearch ["rununiproc", "x"] envAllOk).selectedIndex =
      some (lowestSetBit 6) ∧
    Nat.testBit 6 (lowestSetBit 6) = true ∧
    lowestSetBit 6 < 64 :=
  have h := C6_lowest_set_bit ["rununiproc", "x"] envAllOk 6 (by decide) rfl rfl
    (by decide) (by norm_num)
  ⟨h.1, h.2.1 "C:\\bin\\tool.exe" rfl (by decide), h.2.2.1, h.2.2.2.2.1⟩

/-! ## Claim C7 -/

/-- Modelled from the spec's words, for comparison with the source's loop:
"every argument is wrapped in double quotes verbatim (no internal-quote
escaping) and arguments are separated by single spaces, with no trailing
space" — i.e. quote each argument and intercalate a single space. -/
def specQuoteJoin (args : List String) : String :=
  String.intercalate " " (args.map quoteArg)

theorem intercalate_go_append (s : String) (xs : List String) :
    ∀ acc x, String.intercalate.go acc s (x :: xs) =
      acc ++ s ++ String.intercalate.go x s xs := by
  induction xs with
  | nil => intro acc x; rfl
  | cons y ys ih =>
    intro acc x
    have h1 : String.intercalate.go acc s (x :: y :: ys) =
        String.intercalate.go (acc ++ s ++ x) s (y :: ys) := rfl
    rw [h1, ih, ih]
    simp [String.append_assoc]

/-- The source's command-line loop agrees with the spec's quoting rule. -/
theorem buildCmdLineDirect_eq_spec (args : List String) :
    buildCmdLineDirect args = specQuoteJoin args := by
  induction args with
  | nil => rfl
  | cons a rest ih =>
    cases rest with
    | nil => rfl
    | cons b rest2 =>
      have h1 : buildCmdLineDirect (a :: b :: rest2) =
          quoteArg a ++ " " ++ buildCmdLineDirect (b :: rest2) := rfl
      have h2 : specQuoteJoin (a :: b :: rest2) =
          String.intercalate.go (quoteArg a) " "
            (quoteArg b :: rest2.map quoteArg) := rfl
      have h3 : specQuoteJoin (b :: rest2) =
          String.intercalate.go (quoteArg b) " " (rest2.map quoteArg) := rfl
      rw [h1, ih, h2, intercalate_go_append, h3]

/-- C7: the assembled command line wraps each argument in double quotes
verbatim and joins them with single spaces (no trailing space) — the
source's loop equals the spec's quote-and-intercalate rule for every
argument list — and on the spec's example the direct-mode run records the
command line `"x.exe" "a b" "c"`. -/
theorem C7_quoting (args : List String) :
    buildCmdLineDirect args = specQuoteJoin args ∧
    (wmainDirect ["rununiproc", "x.exe", "a b", "c"] envAllOk).cmdLine =
      some "\"x.exe\" \"a b\" \"c\"" :=
  ⟨buildCmdLineDirect_eq_spec args, by decide⟩

/-! ## Claim C8 -/

/-- Search-mode assembly is exactly direct-mode assembly with the resolved
path substituted for the original first argument. -/
theorem buildCmdLineSearch_eq (p : String) (rest : List String) :
    buildCmdLineSearch p rest = buildCmdLineDirect (p :: rest) := by
  cases rest with
  | nil => rfl
  | cons b rest2 => rfl

/-- C8: in search mode, once `SearchPath` has resolved the bare name to a
path `p` (short enough for the buffer) and the setup calls succeed, the
command line the run records is built from `p` as first token followed by
the quoted `argv[2..]` — equal to the direct-mode build with `p`
substituted for the original first argument. -/
theorem C8_resolved_replaces_first (argv : List String) (env : Env)
    (p : String) (m : Nat)
    (hlen : 2 ≤ argv.length) (hs : env.searchResult = some p)
    (hp : p.length < exePathBufLen) (hjob : env.createJobOk = true)
    (hmask : env.affinityMask = some m) (hm : m ≠ 0)
    (hsl : env.setLimitOk = true) (hsq : env.sizeQueryOk = true)
    (hia : env.initAttrOk = true) (hua : env.updateAttrOk = true) :
    (wmainSearch argv env).cmdLine =
      some (buildCmdLineSearch p (argv.drop 2)) ∧
    buildCmdLineSearch p (argv.drop 2) =
      buildCmdLineDirect (p :: argv.drop 2) := by
  have hge : ¬ argv.length < 2 := by omega
  refine ⟨?_, buildCmdLineSearch_eq p (argv.drop 2)⟩
  unfold wmainSearch
  rw [if_neg hge, hs]
  dsimp only
  rw [if_neg (show ¬ exePathBufLen ≤ p.length by omega)]
  rw [jobSetup_ok_eq { trace := [(Ev.search, true)] } env m hjob hmask hm
    hsl hsq hia hua]
  dsimp only
  split
  · rfl
  · rw [runChild_cmdLine]

/-- Witness for C8: the bare name resolves to `C:\bin\tool.exe`, which
becomes the quoted first token of the assembled command line. -/
theorem C8_resolved_replaces_first_witness :
    (wmainSearch ["rununiproc", "tool", "c"] envAllOk).cmdLine =
      some (buildCmdLineSearch "C:\\bin\\tool.exe" ["c"]) ∧
    buildCmdLineSearch "C:\\bin\\tool.exe" ["c"] =
      buildCmdLineDirect ["C:\\bin\\tool.exe", "c"] :=
  C8_resolved_replaces_first ["rununiproc", "tool", "c"] envAllOk
    "C:\\bin\\tool.exe" 6 (by decide) rfl (by decide) rfl rfl (by decide)
    rfl rfl rfl rfl

/-! ## Claim C5 -/

/-- When `CreateProcess`, `AssignProcessToJobObject`, `ResumeThread` and
`WaitForSingleObject` all succeed and `GetExitCodeProcess` reports `c`, the
tail runs to completion and forwards `c` (as a `DWORD`). -/
theorem runChild_ok_eq (base : RunResult) (env : Env) (cmd : String) (c : Nat)
    (hcp : env.createProcessOk = true) (ha : env.assignOk = true)
    (hr : env.resumeOk = true) (hw : env.waitOk = true)
    (hc : env.childExit = some c) :
    runChild base env cmd = { base with
      cmdLine := some cmd
      processCreated := true
      exitCode := c % 2 ^ 32
      trace := base.trace ++ [(Ev.createProc, true), (Ev.assign, true),
        (Ev.resume, true), (Ev.wait, true), (Ev.getExit, true)] } := by
  simp [runChild, hcp, ha, hr, hw, hc]

/-- A 40000-character argument, longer than the 32767-character limit. -/
def bigArg : String := String.mk (List.replicate 40000 'a')

theorem bigArg_length : bigArg.length = 40000 := by
  unfold bigArg
  rw [String.length_mk, List.length_replicate]

/-- C5 counterexample: the *direct-mode* variant performs no command-line
length check at all.  With a 40000-character argument the assembled command
line exceeds the 32767-character limit, yet the run reports no error, the
oversized command line is passed on, `CreateProcess` is attempted and (the
environment permitting) succeeds, and the child's exit code is forwarded —
contradicting "in both resolution modes ... command assembly fails with
CommandLineTooLongError (tool exits 1) and no process is created". -/
theorem C5_direct_mode_never_checks :
    exePathBufLen < (quoteArg bigArg).length ∧
    (wmainDirect ["rununiproc", bigArg] envAllOk).cmdLine =
      some (quoteArg bigArg) ∧
    (wmainDirect ["rununiproc", bigArg] envAllOk).err = none ∧
    (wmainDirect ["rununiproc", bigArg] envAllOk).processCreated = true ∧
    (wmainDirect ["rununiproc", bigArg] envAllOk).exitCode = 42 := by
  have hge : ¬ (["rununiproc", bigArg] : List String).length < 2 := by simp
  have hsetup := jobSetup_ok_eq {} envAllOk 6 rfl rfl (by decide) rfl rfl rfl rfl
  have heq : wmainDirect ["rununiproc", bigArg] envAllOk =
      runChild { jobCreated := true
                 selectedIndex := some (lowestSetBit 6)
                 limitRequested := some (affinityValue (lowestSetBit 6))
                 trace := [(Ev.createJob, true), (Ev.queryMask, true),
                   (Ev.bitScan, true), (Ev.setLimit, true), (Ev.sizeAttr, true),
                   (Ev.initAttr, true), (Ev.updateAttr, true)] }
        envAllOk (quoteArg bigArg) := by
    unfold wmainDirect
    rw [if_neg hge, hsetup]
    rfl
  rw [runChild_ok_eq _ envAllOk (quoteArg bigArg) 42 rfl rfl rfl rfl rfl] at heq
  refine ⟨?_, ?_, ?_, ?_, ?_⟩
  · simp [quoteArg, String.length_append, bigArg_length, exePathBufLen]
    omega
  · rw [heq]
  · rw [heq]
  · rw [heq]
  · rw [heq]
    decide

/-- C5 (amended): only the *search-mode* variant checks the assembled
command line's length; there, a command line longer than 32767 characters
makes the tool print the too-long diagnostic and exit 1 without attempting
`CreateProcess`.  (The direct-mode variant performs no such check, per the
counterexample.) -/
theorem C5_search_mode_checked (argv : List String) (env : Env)
    (p : String) (m : Nat)
    (hlen : 2 ≤ argv.length) (hs : env.searchResult = some p)
    (hp : p.length < exePathBufLen) (hjob : env.createJobOk = true)
    (hmask : env.affinityMask = some m) (hm : m ≠ 0)
    (hsl : env.setLimitOk = true) (hsq : env.sizeQueryOk = true)
    (hia : env.initAttrOk = true) (hua : env.updateAttrOk = true)
    (hcmd : exePathBufLen < (buildCmdLineSearch p (argv.drop 2)).length) :
    (wmainSearch argv env).err = some Err.cmdLineTooLong ∧
    (wmainSearch argv env).exitCode = 1 ∧
    (wmainSearch argv env).processCreated = false ∧
    (Ev.createProc, true) ∉ (wmainSearch argv env).trace ∧
    (Ev.createProc, false) ∉ (wmainSearch argv env).trace := by
  have hge : ¬ argv.length < 2 := by omega
  unfold wmainSearch
  rw [if_neg hge, hs]
  dsimp only
  rw [if_neg (show ¬ exePathBufLen ≤ p.length by omega)]
  rw [jobSetup_ok_eq { trace := [(Ev.search, true)] } env m hjob hmask hm
    hsl hsq hia hua]
  dsimp only
  rw [if_pos hcmd]
  refine ⟨rfl, rfl, rfl, ?_, ?_⟩ <;> simp

/-- Witness for C5 (amended) with a 40000-character argument in search
mode. -/
theorem C5_search_mode_checked_witness :
    (wmainSearch ["rununiproc", "tool", bigArg] envAllOk).err =
      some Err.cmdLineTooLong ∧
    (wmainSearch ["rununiproc", "tool", bigArg] envAllOk).exitCode = 1 ∧
    (wmainSearch ["rununiproc", "tool", bigArg] envAllOk).processCreated = false ∧
    (Ev.createProc, true) ∉ (wmainSearch ["rununiproc", "tool", bigArg] envAllOk).trace ∧
    (Ev.createProc, false) ∉ (wmainSearch ["rununiproc", "tool", bigArg] envAllOk).trace :=
  C5_search_mode_checked ["rununiproc", "tool", bigArg] envAllOk
    "C:\\bin\\tool.exe" 6 (by simp) rfl (by decide) rfl rfl (by decide)
    rfl rfl rfl rfl
    (by simp [buildCmdLineSearch, buildCmdLineDirect, quoteArg,
          String.length_append, bigArg_length, exePathBufLen]
        omega)

/-! ## Claim C2 -/

/-- `jobSetup` never changes the exit code, the process-created flag or the
terminated flag it inherits from `base`, whichever way it exits. -/
theorem jobSetup_fields (base : RunResult) (env : Env) (r : RunResult)
    (h : jobSetup base env = Except.error r ∨ jobSetup base env = Except.ok r) :
    r.exitCode = base.exitCode ∧ r.processCreated = base.processCreated ∧
    r.childTerminated = base.childTerminated := by
  simp [jobSetup] at h
  rcases h with h | h
  all_goals repeat' split at h
  all_goals first
    | (injection h with h2; subst h2; exact ⟨rfl, rfl, rfl⟩)
    | (injection h)

/-- Exit-code case analysis for the shared tail: a `CreateProcess` failure
keeps the inherited (failure) exit code; after a successful create, assign
and resume, a failed wait or a failed exit-code read yields 0, and a
successful read of `c` yields `c` as a `DWORD`. -/
theorem runChild_exit_cases (base : RunResult) (env : Env) (cmd : String)
    (c : Nat) :
    (env.createProcessOk = false →
      (runChild base env cmd).exitCode = base.exitCode) ∧
    (env.createProcessOk = true → env.assignOk = true → env.resumeOk = true →
      env.waitOk = false → (runChild base env cmd).exitCode = 0) ∧
    (env.createProcessOk = true → env.assignOk = true → env.resumeOk = true →
      env.waitOk = true → env.childExit = none →
      (runChild base env cmd).exitCode = 0) ∧
    (env.createProcessOk = true → env.assignOk = true → env.resumeOk = true →
      env.waitOk = true → env.childExit = some c →
      (runChild base env cmd).exitCode = c % 2 ^ 32) := by
  unfold runChild
  repeat' split
  all_goals (try simp_all)

/-- Exit-code case analysis for the direct-mode variant. -/
theorem wmainDirect_exit_cases (argv : List String) (env : Env) (c : Nat) :
    ((wmainDirect argv env).processCreated = false →
      (wmainDirect argv env).exitCode = 1) ∧
    ((wmainDirect argv env).processCreated = true → env.assignOk = true →
      env.resumeOk = true → env.waitOk = false →
      (wmainDirect argv env).exitCode = 0) ∧
    ((wmainDirect argv env).processCreated = true → env.assignOk = true →
      env.resumeOk = true → env.waitOk = true → env.childExit = none →
      (wmainDirect argv env).exitCode = 0) ∧
    ((wmainDirect argv env).processCreated = true → env.assignOk = true →
      env.resumeOk = true → env.waitOk = true → env.childExit = some c →
      c < 2 ^ 32 → (wmainDirect argv env).exitCode = c) := by
  unfold wmainDirect
  split
  · simp
  · cases hjs : jobSetup {} env with
    | error r =>
      obtain ⟨he, hp, _⟩ := jobSetup_fields {} env r (Or.inl hjs)
      dsimp only
      simp [he, hp]
    | ok r =>
      obtain ⟨he, hp, _⟩ := jobSetup_fields {} env r (Or.inr hjs)
      have hpc := runChild_processCreated r env (buildCmdLineDirect (argv.drop 1))
      obtain ⟨h1, h2, h3, h4⟩ :=
        runChild_exit_cases r env (buildCmdLineDirect (argv.drop 1)) c
      dsimp only
      refine ⟨?_, ?_, ?_, ?_⟩
      · intro hfalse
        rw [hpc] at hfalse
        rw [h1 hfalse, he]
      · intro htrue ha hr hw
        rw [hpc] at htrue
        exact h2 htrue ha hr hw
      · intro htrue ha hr hw hc
        rw [hpc] at htrue
        exact h3 htrue ha hr hw hc
      · intro htrue ha hr hw hc hlt
        rw [hpc] at htrue
        rw [h4 htrue ha hr hw hc]
        omega

/-- Exit-code case analysis for the search-mode variant. -/
theorem wmainSearch_exit_cases (argv : List String) (env : Env) (c : Nat) :
    ((wmainSearch argv env).processCreated = false →
      (wmainSearch argv env).exitCode = 1) ∧
    ((wmainSearch argv env).processCreated = true → env.assignOk = true →
      env.resumeOk = true → env.waitOk = false →
      (wmainSearch argv env).exitCode = 0) ∧
    ((wmainSearch argv env).processCreated = true → env.assignOk = true →
      env.resumeOk = true → env.waitOk = true → env.childExit = none →
      (wmainSearch argv env).exitCode = 0) ∧
    ((wmainSearch argv env).processCreated = true → env.assignOk = true →
      env.resumeOk = true → env.waitOk = true → env.childExit = some c →
      c < 2 ^ 32 → (wmainSearch argv env).exitCode = c) := by
  unfold wmainSearch
  split
  · simp
  · cases hsr : env.searchResult with
    | none => simp
    | some p =>
      dsimp only
      split
      · simp
      · cases hjs : jobSetup { trace := [(Ev.search, true)] } env with
      | error r =>
          obtain ⟨he, hp, _⟩ :=
            jobSetup_fields { trace := [(Ev.search, true)] } env r (Or.inl hjs)
          dsimp only
          simp [he, hp]
      | ok r =>
          obtain ⟨he, hp, _⟩ :=
            jobSetup_fields { trace := [(Ev.search, true)] } env r (Or.inr hjs)
          dsimp only
          split
          · simp [hp]
          · have hpc := runChild_processCreated r env
              (buildCmdLineSearch p (argv.drop 2))
            obtain ⟨h1, h2, h3, h4⟩ :=
              runChild_exit_cases r env (buildCmdLineSearch p (argv.drop 2)) c
            refine ⟨?_, ?_, ?_, ?_⟩
            · intro hfalse
              rw [hpc] at hfalse
              rw [h1 hfalse, he]
            · intro htrue ha hr hw
              rw [hpc] at htrue
              exact h2 htrue ha hr hw
            · intro htrue ha hr hw hc
              rw [hpc] at htrue
              exact h3 htrue ha hr hw hc
            · intro htrue ha hr hw hc hlt
              rw [hpc] at htrue
              rw [h4 htrue ha hr hw hc]
              omega

/-- C2: in both variants the tool's exit code is 1 whenever `CreateProcess`
did not succeed (any launch-time failure up to and including process
creation); after a successful creation, binding and resume, a failed wait
or a failed exit-code retrieval yields exit code 0; and when the child's
exit code `c` could be retrieved the tool's exit code equals `c`. -/
theorem C2_exit_code (argv : List String) (env : Env) (c : Nat) :
    ((wmainDirect argv env).processCreated = false →
      (wmainDirect argv env).exitCode = 1) ∧
    ((wmainDirect argv env).processCreated = true → env.assignOk = true →
      env.resumeOk = true → env.waitOk = false →
      (wmainDirect argv env).exitCode = 0) ∧
    ((wmainDirect argv env).processCreated = true → env.assignOk = true →
      env.resumeOk = true → env.waitOk = true → env.childExit = none →
      (wmainDirect argv env).exitCode = 0) ∧
    ((wmainDirect argv env).processCreated = true → env.assignOk = true →
      env.resumeOk = true → env.waitOk = true → env.childExit = some c →
      c < 2 ^ 32 → (wmainDirect argv env).exitCode = c) ∧
    ((wmainSearch argv env).processCreated = false →
      (wmainSearch argv env).exitCode = 1) ∧
    ((wmainSearch argv env).processCreated = true → env.assignOk = true →
      env.resumeOk = true → env.waitOk = false →
      (wmainSearch argv env).exitCode = 0) ∧
    ((wmainSearch argv env).processCreated = true → env.assignOk = true →
      env.resumeOk = true → env.waitOk = true → env.childExit = none →
      (wmainSearch argv env).exitCode = 0) ∧
    ((wmainSearch argv env).processCreated = true → env.assignOk = true →
      env.resumeOk = true → env.waitOk = true → env.childExit = some c →
      c < 2 ^ 32 → (wmainSearch argv env).exitCode = c) :=
  have hd := wmainDirect_exit_cases argv env c
  have hs := wmainSearch_exit_cases argv env c
  ⟨hd.1, hd.2.1, hd.2.2.1, hd.2.2.2, hs.1, hs.2.1, hs.2.2.1, hs.2.2.2⟩

/-- Environment in which `CreateProcess` fails. -/
def envCreateFail : Env := { envAllOk with createProcessOk := false }

/-- Environment in which `WaitForSingleObject` fails. -/
def envWaitFail : Env := { envAllOk with waitOk := false }

/-- Environment in which `GetExitCodeProcess` fails. -/
def envExitFail : Env := { envAllOk with childExit := none }

/-- Witness for C2: exit 1 when creation fails, exit 0 when the wait or the
exit-code read fails, the child's code 42 forwarded otherwise, in both
modes. -/
theorem C2_exit_code_witness :
    (wmainDirect ["rununiproc", "x"] envCreateFail).exitCode = 1 ∧
    (wmainDirect ["rununiproc", "x"] envWaitFail).exitCode = 0 ∧
    (wmainDirect ["rununiproc", "x"] envExitFail).exitCode = 0 ∧
    (wmainDirect ["rununiproc", "x"] envAllOk).exitCode = 42 ∧
    (wmainSearch ["rununiproc", "x"] envAllOk).exitCode = 42 :=
  ⟨(C2_exit_code ["rununiproc", "x"] envCreateFail 42).1 (by decide),
   (C2_exit_code ["rununiproc", "x"] envWaitFail 42).2.1 (by decide) rfl rfl rfl,
   (C2_exit_code ["rununiproc", "x"] envExitFail 42).2.2.1
     (by decide) rfl rfl rfl rfl,
   (C2_exit_code ["rununiproc", "x"] envAllOk 42).2.2.2.1
     (by decide) rfl rfl rfl rfl (by decide),
   (C2_exit_code ["rununiproc", "x"] envAllOk 42).2.2.2.2.2.2.2
     (by decide) rfl rfl rfl rfl (by decide)⟩

/-! ## Claim C1 -/

/-- Scanning predicate: `true` iff a trace contains no assign, resume or
terminate event at all. -/
def noAR : List (Ev × Bool) → Bool
  | [] => true
  | (ev, _) :: rest =>
    match ev with
    | Ev.assign => false
    | Ev.resume => false
    | Ev.terminate => false
    | _ => noAR rest

/-- The ordering/cleanup property claim C1 asserts of every execution:
scanning the trace left to right, every `ResumeThread` call is preceded by
a successful `AssignProcessToJobObject`; and if an assign or a resume
failure is in the trace, the child was force-terminated (a successful
`TerminateProcess` call is in the trace) and the exit code is 1. -/
def traceOk (r : RunResult) : Prop :=
  assignedBeforeResume false r.trace = true ∧
  ((Ev.assign, false) ∈ r.trace →
    r.childTerminated = true ∧ (Ev.terminate, true) ∈ r.trace ∧
    r.exitCode = 1) ∧
  ((Ev.resume, false) ∈ r.trace →
    r.childTerminated = true ∧ (Ev.terminate, true) ∈ r.trace ∧
    r.exitCode = 1)

theorem noAR_append (l1 l2 : List (Ev × Bool)) :
    noAR (l1 ++ l2) = (noAR l1 && noAR l2) := by
  induction l1 with
  | nil => rfl
  | cons e rest ih =>
    cases e with
    | mk ev b => cases ev <;> simp [noAR, ih]

theorem noAR_scan (l : List (Ev × Bool)) (seen : Bool) (h : noAR l = true) :
    assignedBeforeResume seen l = true := by
  induction l generalizing seen with
  | nil => rfl
  | cons e rest ih =>
    cases e with
    | mk ev b =>
      cases ev
      all_goals simp [noAR] at h
      all_goals simp [assignedBeforeResume]
      all_goals exact ih _ h

theorem noAR_scan_append (l1 l2 : List (Ev × Bool)) (seen : Bool)
    (h : noAR l1 = true) :
    assignedBeforeResume seen (l1 ++ l2) = assignedBeforeResume seen l2 := by
  induction l1 generalizing seen with
  | nil => rfl
  | cons e rest ih =>
    cases e with
    | mk ev b =>
      cases ev
      all_goals simp [noAR] at h
      all_goals simp [assignedBeforeResume]
      all_goals exact ih _ h

theorem noAR_not_mem (l : List (Ev × Bool)) (h : noAR l = true) (b : Bool) :
    (Ev.assign, b) ∉ l ∧ (Ev.resume, b) ∉ l ∧ (Ev.terminate, b) ∉ l := by
  induction l with
  | nil => simp
  | cons e rest ih =>
    cases e with
    | mk ev bb =>
      cases ev
      all_goals simp [noAR] at h
      all_goals simp_all

/-- A trace with no assign/resume/terminate events trivially satisfies the
C1 property. -/
theorem noAR_traceOk (r : RunResult) (h : noAR r.trace = true) : traceOk r := by
  refine ⟨noAR_scan r.trace false h, ?_, ?_⟩
  · intro hmem
    exact absurd hmem (noAR_not_mem r.trace h false).1
  · intro hmem
    exact absurd hmem (noAR_not_mem r.trace h false).2.1

/-- Whichever way it exits, `jobSetup` appends only setup events, so a
trace free of assign/resume/terminate events stays free of them. -/
theorem jobSetup_noAR (base : RunResult) (env : Env) (r : RunResult)
    (h : jobSetup base env = Except.error r ∨ jobSetup base env = Except.ok r)
    (hb : noAR base.trace = true) :
    noAR r.trace = true := by
  simp [jobSetup] at h
  rcases h with h | h
  all_goals repeat' split at h
  all_goals first
    | (injection h with h2; subst h2; simp [noAR, noAR_append, hb])
    | (injection h)

/-- The C1 property for the shared tail: `ResumeThread` is only ever called
after a successful `AssignProcessToJobObject`, and an assign or resume
failure terminates the child and exits 1. -/
theorem runChild_traceOk (base : RunResult) (env : Env) (cmd : String)
    (hb : noAR base.trace = true) :
    traceOk (runChild base env cmd) := by
  have hna := noAR_not_mem base.trace hb
  have hsc : ∀ (l2 : List (Ev × Bool)) (seen : Bool),
      assignedBeforeResume seen (base.trace ++ l2) =
        assignedBeforeResume seen l2 :=
    fun l2 seen => noAR_scan_append base.trace l2 seen hb
  unfold traceOk runChild
  repeat' split
  all_goals (try simp_all [List.mem_append, assignedBeforeResume,
    (hna true).1, (hna true).2.1, (hna false).1, (hna false).2.1])

/-- C1: in every execution of either variant, the child's initial thread is
resumed only after it was successfully bound to the job object, and an
assign or resume failure force-terminates the child before the tool returns
with exit code 1. -/
theorem C1_bind_before_resume (argv : List String) (env : Env) :
    traceOk (wmainDirect argv env) ∧ traceOk (wmainSearch argv env) := by
  constructor
  · unfold wmainDirect
    split
    · exact noAR_traceOk _ (by decide)
    · cases hjs : jobSetup {} env with
      | error r => exact noAR_traceOk r (jobSetup_noAR {} env r (Or.inl hjs) rfl)
      | ok r =>
        exact runChild_traceOk r env _ (jobSetup_noAR {} env r (Or.inr hjs) rfl)
  · unfold wmainSearch
    split
    · exact noAR_traceOk _ (by decide)
    · cases hsr : env.searchResult with
      | none =>
        dsimp only
        exact noAR_traceOk _ (by decide)
      | some p =>
        dsimp only
        split
        · exact noAR_traceOk _ (by decide)
        · cases hjs : jobSetup { trace := [(Ev.search, true)] } env with
          | error r =>
            exact noAR_traceOk r
              (jobSetup_noAR { trace := [(Ev.search, true)] } env r
                (Or.inl hjs) (by decide))
          | ok r =>
            dsimp only
            split
            · exact noAR_traceOk _
                (jobSetup_noAR { trace := [(Ev.search, true)] } env r
                  (Or.inr hjs) (by decide))
            · exact runChild_traceOk r env _
                (jobSetup_noAR { trace := [(Ev.search, true)] } env r
                  (Or.inr hjs) (by decide))

/-- Environment in which `AssignProcessToJobObject` fails. -/
def envAssignFail : Env := { envAllOk with assignOk := false }

/-- Environment in which `ResumeThread` fails. -/
def envResumeFail : Env := { envAllOk with resumeOk := false }

/-- Witness for C1: on an assign failure (direct mode) and on a resume
failure (search mode) the child is terminated and the exit code is 1; on an
all-success run the resume-after-assign scan holds. -/
theorem C1_bind_before_resume_witness :
    ((wmainDirect ["rununiproc", "x"] envAssignFail).childTerminated = true ∧
     (Ev.terminate, true) ∈
       (wmainDirect ["rununiproc", "x"] envAssignFail).trace ∧
     (wmainDirect ["rununiproc", "x"] envAssignFail).exitCode = 1) ∧
    ((wmainSearch ["rununiproc", "x"] envResumeFail).childTerminated = true ∧
     (Ev.terminate, true) ∈
       (wmainSearch ["rununiproc", "x"] envResumeFail).trace ∧
     (wmainSearch ["rununiproc", "x"] envResumeFail).exitCode = 1) ∧
    assignedBeforeResume false
      (wmainDirect ["rununiproc", "x"] envAllOk).trace = true :=
  ⟨(C1_bind_before_resume ["rununiproc", "x"] envAssignFail).1.2.1 (by decide),
   (C1_bind_before_resume ["rununiproc", "x"] envResumeFail).2.2.2 (by decide),
   (C1_bind_before_resume ["rununiproc", "x"] envAllOk).1.1⟩

end RunUniProc
